/-
Verification of the MergeGuard checkpoint-gating core.

Shallow embedding of the repository's JavaScript source:
  * src/unnamed/part_004  — CooldownManager (nudge cooldowns, allow tokens)
  * src/unnamed/part_000  — StateManager (per-PR session state)
  * src/unnamed/part_001  — EventInterceptor (classification, suppression order)
  * src/src/policy/policy-loader.js       — PolicyLoader.classifyCheckpoint
  * src/src/policy/readiness-calculator.js — ReadinessCalculator.calculate
  * src/src/ui/tier3-modal.js             — Tier3Modal confirmation surface
  * src/src/utils/logger.js               — Logger.redact / Logger.log

JavaScript numbers are modelled as Int where only integer arithmetic occurs
(timestamps, TTLs) and as Rat where division or fractional weights occur
(readiness scores, metrics).  JavaScript strings are modelled as lists of
characters where case conversion or trimming matters, and as Lean String
where only exact equality is used (object keys, kind identifiers).
-/
import Mathlib

set_option maxRecDepth 4000
set_option linter.unnecessarySeqFocus false

namespace MergeGuard

/-! ## JavaScript string model -/

/-- The model of a JavaScript string value on which case conversion or
trimming is performed: its list of characters. -/
abbrev JStr := List Char

/-- Embed a string literal as a `JStr` value. -/
def jstr (s : String) : JStr := s.data

/-- JavaScript `String.prototype.toLowerCase` restricted to the ASCII range
(the only range the policy patterns and confirmation texts use). -/
def toLowerJ (s : JStr) : JStr := s.map Char.toLower

/-- JavaScript `String.prototype.toUpperCase` restricted to the ASCII range. -/
def toUpperJ (s : JStr) : JStr := s.map Char.toUpper

/-- JavaScript `String.prototype.trim`: strip whitespace from both ends. -/
def trimJ (s : JStr) : JStr :=
  ((s.dropWhile Char.isWhitespace).reverse.dropWhile Char.isWhitespace).reverse

/-- Decide whether `pat` occurs as a contiguous substring of the second
argument. -/
def infixOfJ (pat : JStr) : JStr → Bool
  | [] => pat.isPrefixOf []
  | c :: rest => pat.isPrefixOf (c :: rest) || infixOfJ pat rest

/-- Case-insensitive containment: the semantics of testing the regular
expression built from a metacharacter-free pattern `pat` with the `i` flag
(`new RegExp(pat, 'i').test(hay)`, policy-loader.js line 245). -/
def containsCI (hay pat : JStr) : Bool := infixOfJ (toLowerJ pat) (toLowerJ hay)

/-! ## CooldownManager: allow tokens (src/unnamed/part_004)

Tokens live in extension storage under the key
`allow_token_${prId}_${elementId}`; the store is modelled as a map keyed by
the `(prId, elementId)` pair. -/

/-- Allow-token record as written by `CooldownManager.createAllowToken`
(part_004 lines 114-123): `{timestamp, ttl, used}`. -/
structure AllowToken where
  timestamp : Int
  ttl : Int
  used : Bool
deriving DecidableEq

/-- Storage holding the allow tokens, keyed by `(prId, elementId)`. -/
def TokenStore := String × String → Option AllowToken

/-- Store with no tokens. -/
def TokenStore.empty : TokenStore := fun _ => none

/-- Write one token record (`storage.set`). -/
def TokenStore.set (st : TokenStore) (key : String × String) (tok : AllowToken) :
    TokenStore :=
  fun k => if k = key then some tok else st k

/-- Remove one token record (`storage.remove`). -/
def TokenStore.removeKey (st : TokenStore) (key : String × String) : TokenStore :=
  fun k => if k = key then none else st k

/-- JavaScript `x || d` on an optional numeric field: both `undefined` and
`0` are falsy and fall back to the default. -/
def jsOrInt (v : Option Int) (d : Int) : Int :=
  match v with
  | none => d
  | some x => if x = 0 then d else x

/-- Cooldown durations section of the policy (`policy.getCooldowns()`),
every field optional. -/
structure CooldownConfig where
  proactive_nudge_ms : Option Int
  premerge_reset_after_review_ms : Option Int
  token_ttl_ms : Option Int

/-- `CooldownManager.getCooldowns` (part_004 lines 15-21):
`this.policy.getCooldowns() || {hard-coded defaults}`. -/
def getCooldowns (policy : Option CooldownConfig) : CooldownConfig :=
  match policy with
  | some c => c
  | none =>
    { proactive_nudge_ms := some 600000
      premerge_reset_after_review_ms := some 300000
      token_ttl_ms := some 5000 }

/-- `CooldownManager.createAllowToken` (part_004 lines 114-123): store
`{timestamp: Date.now(), ttl: cooldowns.token_ttl_ms || 5000, used: false}`
under the token key. -/
def createAllowToken (policy : Option CooldownConfig) (now : Int) (st : TokenStore)
    (prId elementId : String) : TokenStore :=
  st.set (prId, elementId)
    { timestamp := now
      ttl := jsOrInt (getCooldowns policy).token_ttl_ms 5000
      used := false }

/-- `CooldownManager.hasValidToken` (part_004 lines 131-142): false when no
token is stored, when the token is used, or when `now - timestamp > ttl`;
true otherwise. -/
def hasValidToken (st : TokenStore) (prId elementId : String) (now : Int) : Bool :=
  match st (prId, elementId) with
  | none => false
  | some token =>
    if token.used then false
    else if now - token.timestamp > token.ttl then false
    else true

/-- `CooldownManager.consumeToken` (part_004 lines 150-163): if a token is
stored, flag it `used` and write it back.  The deferred `storage.remove`
scheduled 100 ms later is modelled separately by `TokenStore.removeKey`. -/
def consumeToken (st : TokenStore) (prId elementId : String) : TokenStore :=
  match st (prId, elementId) with
  | none => st
  | some token => st.set (prId, elementId) { token with used := true }

/-! ## CooldownManager: pre-merge nudge cooldown (src/unnamed/part_004) -/

/-- Record written by `recordPremergeNudge` under `nudge_premerge_${prId}`:
`{timestamp, tier, action}`. -/
structure PremergeRecord where
  timestamp : Int
  tier : Nat
  action : String
deriving DecidableEq

/-- Record written by `recordReview` under `review_${prId}`: `{timestamp}`. -/
structure ReviewRecord where
  timestamp : Int
deriving DecidableEq

/-- The slices of extension storage the pre-merge cooldown rule reads,
keyed per PR identifier. -/
structure NudgeStore where
  premerge : String → Option PremergeRecord
  review : String → Option ReviewRecord

/-- `CooldownManager.shouldShowPremergeNudge` (part_004 lines 61-78): true
when never shown; otherwise true exactly when a review record exists with
`lastReview.timestamp > record.timestamp`; no clock is consulted. -/
def shouldShowPremergeNudge (st : NudgeStore) (prId : String) : Bool :=
  match st.premerge prId with
  | none => true
  | some record =>
    match st.review prId with
    | some lastReview => decide (lastReview.timestamp > record.timestamp)
    | none => false

/-- `CooldownManager.recordReview` (part_004 lines 101-106): stamp
`{timestamp: Date.now()}` under `review_${prId}`. -/
def recordReview (now : Int) (st : NudgeStore) (prId : String) : NudgeStore :=
  { st with review := fun k => if k = prId then some ⟨now⟩ else st.review k }

/-- `CooldownManager.recordPremergeNudge` (part_004 lines 87-94). -/
def recordPremergeNudge (now : Int) (tier : Nat) (action : String)
    (st : NudgeStore) (prId : String) : NudgeStore :=
  { st with premerge := fun k => if k = prId then some ⟨now, tier, action⟩ else st.premerge k }

/-! ## Theorems: allow tokens -/

/-- C3: for every (resourceId, elementIdentity) pair holding a currently
valid allow token, consuming the token makes an immediately-subsequent
validity check for the same pair return false. -/
theorem consume_invalidates_token (st : TokenStore) (prId elementId : String)
    (now : Int) (h : hasValidToken st prId elementId now = true) :
    hasValidToken (consumeToken st prId elementId) prId elementId now = false := by
  unfold hasValidToken consumeToken at *
  cases hst : st (prId, elementId) with
  | none => simp [hst] at h
  | some token => simp [hst, TokenStore.set]

theorem consume_invalidates_token_witness :
    hasValidToken (TokenStore.empty.set ("octo/repo/1", "btn-merge") ⟨1000, 5000, false⟩)
      "octo/repo/1" "btn-merge" 1200 = true ∧
    hasValidToken
      (consumeToken (TokenStore.empty.set ("octo/repo/1", "btn-merge") ⟨1000, 5000, false⟩)
        "octo/repo/1" "btn-merge")
      "octo/repo/1" "btn-merge" 1200 = false :=
  ⟨by decide,
   consume_invalidates_token
     (TokenStore.empty.set ("octo/repo/1", "btn-merge") ⟨1000, 5000, false⟩)
     "octo/repo/1" "btn-merge" 1200 (by decide)⟩

/-- C4: a stored token is valid iff it is not consumed and the elapsed time
since issuance is at most its TTL; the check is false when no token exists;
and a token issued with TTL 5000 ms is valid 4999 ms after issuance and
invalid 5001 ms after issuance. -/
theorem token_validity_spec :
    (∀ (st : TokenStore) (prId elementId : String) (now : Int),
      st (prId, elementId) = none → hasValidToken st prId elementId now = false) ∧
    (∀ (st : TokenStore) (prId elementId : String) (now : Int) (tok : AllowToken),
      st (prId, elementId) = some tok →
      (hasValidToken st prId elementId now = true ↔
        (tok.used = false ∧ now - tok.timestamp ≤ tok.ttl))) ∧
    (∀ (st : TokenStore) (prId elementId : String) (t0 : Int),
      hasValidToken
        (createAllowToken (some ⟨none, none, some 5000⟩) t0 st prId elementId)
        prId elementId (t0 + 4999) = true ∧
      hasValidToken
        (createAllowToken (some ⟨none, none, some 5000⟩) t0 st prId elementId)
        prId elementId (t0 + 5001) = false) := by
  refine ⟨fun st prId elementId now h => ?_,
          fun st prId elementId now tok h => ?_,
          fun st prId elementId t0 => ⟨?_, ?_⟩⟩
  · simp [hasValidToken, h]
  · simp only [hasValidToken, h]
    constructor
    · intro hv
      by_cases hu : tok.used
      · simp [hu] at hv
      · by_cases he : now - tok.timestamp > tok.ttl
        · simp [hu, he] at hv
        · exact ⟨by simpa using hu, by omega⟩
    · rintro ⟨hu, he⟩
      simp [hu]
      omega
  · simp [createAllowToken, hasValidToken, TokenStore.set, getCooldowns, jsOrInt]
  · simp [createAllowToken, hasValidToken, TokenStore.set, getCooldowns, jsOrInt]

/-! ## Theorems: pre-merge nudge cooldown -/

/-- C8: the pre-merge nudge is shown iff it was never shown for the
resource, or a meaningful-review event was recorded for the resource with a
timestamp strictly after the last showing; in every other case the check is
false — and it consults no clock, so elapsed time alone never re-enables
it. -/
theorem premerge_nudge_show_spec (st : NudgeStore) (prId : String) :
    shouldShowPremergeNudge st prId = true ↔
      (st.premerge prId = none ∨
        (∃ record lastReview,
          st.premerge prId = some record ∧
          st.review prId = some lastReview ∧
          record.timestamp < lastReview.timestamp)) := by
  unfold shouldShowPremergeNudge
  cases hp : st.premerge prId with
  | none => simp
  | some record =>
    cases hr : st.review prId with
    | none => simp
    | some lastReview =>
      simp only [hp, hr, decide_eq_true_eq]
      constructor
      · intro h
        exact Or.inr ⟨record, lastReview, rfl, rfl, h⟩
      · rintro (h | ⟨r, l, hr1, hr2, hlt⟩)
        · exact absurd h (by simp)
        · cases hr1
          cases hr2
          exact hlt

/-! ## StateManager: per-PR session state (src/unnamed/part_000)

Every mutation method guards on a present `currentState`, mutates it, and
calls `save()`, which stamps `lastActive = Date.now()` before persisting.
Each method below takes the clock reading `now` that `save()` would use. -/

/-- The `diffMetrics` object of a session state. -/
structure DiffMetrics where
  diff_time_ms : ℚ
  diff_scroll_max_pct : ℚ
deriving DecidableEq

/-- One element of `checkpointHistory`, as pushed by
`StateManager.recordCheckpoint` (part_000 lines 228-232). -/
structure CheckpointEntry where
  timestamp : Int
  kind : String
  result : String
deriving DecidableEq

/-- Record written by `StateManager.recordNudgeShown`. -/
structure NudgeShownRecord where
  timestamp : Int
  tier : Nat
deriving DecidableEq

/-- Session state as created by `StateManager.createFreshState`
(part_000 lines 78-100).  The constant `version` tag is omitted. -/
structure SessionState where
  prId : String
  sessionId : String
  prLoadTime : ℚ
  lastActive : Int
  tabsViewed : List String
  checksViewed : Bool
  diffMetrics : DiffMetrics
  nudgeProactive : Option NudgeShownRecord
  nudgePremerge : Option NudgeShownRecord
  checkpointHistory : List CheckpointEntry
deriving DecidableEq

/-- `StateManager.recordTabView` (part_000 lines 139-146): push the tab and
save only when it is not yet present. -/
def recordTabView (now : Int) (tab : String) (s : SessionState) : SessionState :=
  if s.tabsViewed.contains tab then s
  else { s with tabsViewed := s.tabsViewed ++ [tab], lastActive := now }

/-- `StateManager.recordChecksViewed` (part_000 lines 152-159). -/
def recordChecksViewed (now : Int) (s : SessionState) : SessionState :=
  if s.checksViewed then s
  else { s with checksViewed := true, lastActive := now }

/-- `StateManager.addDiffTime` (part_000 lines 166-171). -/
def addDiffTime (now : Int) (ms : ℚ) (s : SessionState) : SessionState :=
  { s with
    diffMetrics := { s.diffMetrics with diff_time_ms := s.diffMetrics.diff_time_ms + ms }
    lastActive := now }

/-- `StateManager.updateScrollMax` (part_000 lines 178-186): replace the
stored maximum scroll percentage by `Math.max(stored, pct)` and save. -/
def updateScrollMax (now : Int) (pct : ℚ) (s : SessionState) : SessionState :=
  { s with
    diffMetrics :=
      { s.diffMetrics with
        diff_scroll_max_pct := max s.diffMetrics.diff_scroll_max_pct pct }
    lastActive := now }

/-- `StateManager.updateScrollMax` including the `if (!this.currentState)
return;` guard: with no current state nothing changes. -/
def updateScrollMaxOpt (now : Int) (pct : ℚ) :
    Option SessionState → Option SessionState
  | none => none
  | some s => some (updateScrollMax now pct s)

/-- `StateManager.updateDiffMetrics` (part_000 lines 193-201) with both
fields of the argument present (spread overwrite). -/
def updateDiffMetrics (now : Int) (m : DiffMetrics) (s : SessionState) : SessionState :=
  { s with diffMetrics := m, lastActive := now }

/-- `StateManager.recordNudgeShown` (part_000 lines 209-217). -/
def recordNudgeShown (now : Int) (proactive : Bool) (tier : Nat) (s : SessionState) :
    SessionState :=
  if proactive then
    { s with nudgeProactive := some ⟨now, tier⟩, lastActive := now }
  else
    { s with nudgePremerge := some ⟨now, tier⟩, lastActive := now }

/-- `StateManager.recordCheckpoint` (part_000 lines 225-240): push
`{timestamp, kind, result}`, then `shift()` the oldest entry when the
length exceeds 10, then save. -/
def recordCheckpoint (now : Int) (kind result : String) (s : SessionState) :
    SessionState :=
  let h := s.checkpointHistory ++ [⟨now, kind, result⟩]
  { s with
    checkpointHistory := if h.length > 10 then h.tail else h
    lastActive := now }

/-- The mutation methods of StateManager, as one operation type. -/
inductive StateOp where
  | tabView (now : Int) (tab : String)
  | checksViewed (now : Int)
  | diffTime (now : Int) (ms : ℚ)
  | scrollMax (now : Int) (pct : ℚ)
  | diffMetricsUpdate (now : Int) (m : DiffMetrics)
  | nudgeShown (now : Int) (proactive : Bool) (tier : Nat)
  | checkpoint (now : Int) (kind result : String)

/-- Apply one StateManager mutation. -/
def applyStateOp : StateOp → SessionState → SessionState
  | .tabView now tab => recordTabView now tab
  | .checksViewed now => recordChecksViewed now
  | .diffTime now ms => addDiffTime now ms
  | .scrollMax now pct => updateScrollMax now pct
  | .diffMetricsUpdate now m => updateDiffMetrics now m
  | .nudgeShown now proactive tier => recordNudgeShown now proactive tier
  | .checkpoint now kind result => recordCheckpoint now kind result

/-! ## Theorems: session state -/

/-- C9: the invariant `checkpointHistory.length ≤ 10` is preserved by every
StateManager mutation; `recordCheckpoint` appends the new entry at the end
and, exactly when the bound would be exceeded, evicts the single oldest
entry, leaving the most recent entries in order. -/
theorem checkpoint_history_bound (s : SessionState)
    (hlen : s.checkpointHistory.length ≤ 10) :
    (∀ op : StateOp, (applyStateOp op s).checkpointHistory.length ≤ 10) ∧
    (∀ (now : Int) (kind result : String),
      (recordCheckpoint now kind result s).checkpointHistory =
        (if s.checkpointHistory.length = 10 then s.checkpointHistory.tail
         else s.checkpointHistory) ++ [⟨now, kind, result⟩]) := by
  have hrec : ∀ (now : Int) (kind result : String),
      (recordCheckpoint now kind result s).checkpointHistory =
        (if s.checkpointHistory.length = 10 then s.checkpointHistory.tail
         else s.checkpointHistory) ++ [⟨now, kind, result⟩] := by
    intro now kind result
    unfold recordCheckpoint
    by_cases h10 : s.checkpointHistory.length = 10
    · have hne : s.checkpointHistory ≠ [] := by
        intro he
        rw [he] at h10
        simp at h10
      simp only [h10, List.length_append, List.length_singleton, if_pos (by omega : 10 + 1 > 10), if_pos rfl]
      cases hc : s.checkpointHistory with
      | nil => exact absurd hc hne
      | cons a t => simp
    · have : ¬ s.checkpointHistory.length + 1 > 10 := by omega
      simp [h10, this]
  refine ⟨fun op => ?_, hrec⟩
  cases op with
  | tabView now tab =>
    unfold applyStateOp recordTabView
    by_cases h : tab ∈ s.tabsViewed <;> simp [h, hlen]
  | checksViewed now =>
    unfold applyStateOp recordChecksViewed
    by_cases h : s.checksViewed <;> simp [h, hlen]
  | diffTime now ms => simpa [applyStateOp, addDiffTime] using hlen
  | scrollMax now pct => simpa [applyStateOp, updateScrollMax] using hlen
  | diffMetricsUpdate now m => simpa [applyStateOp, updateDiffMetrics] using hlen
  | nudgeShown now proactive tier =>
    unfold applyStateOp recordNudgeShown
    by_cases h : proactive <;> simp [h, hlen]
  | checkpoint now kind result =>
    rw [show applyStateOp (.checkpoint now kind result) s
        = recordCheckpoint now kind result s from rfl, hrec]
    by_cases h10 : s.checkpointHistory.length = 10 <;>
      simp [h10, List.length_tail] <;> omega

/-- Fresh state used to witness session-state theorems at a concrete input. -/
def sampleState : SessionState :=
  { prId := "octo/repo/1"
    sessionId := "s-1"
    prLoadTime := 1000
    lastActive := 1000
    tabsViewed := ["conversation"]
    checksViewed := false
    diffMetrics := { diff_time_ms := 0, diff_scroll_max_pct := 40 }
    nudgeProactive := none
    nudgePremerge := none
    checkpointHistory := [] }

theorem checkpoint_history_bound_witness :
    sampleState.checkpointHistory.length ≤ 10 ∧
    (∀ op : StateOp, (applyStateOp op sampleState).checkpointHistory.length ≤ 10) ∧
    (∀ (now : Int) (kind result : String),
      (recordCheckpoint now kind result sampleState).checkpointHistory =
        (if sampleState.checkpointHistory.length = 10 then
          sampleState.checkpointHistory.tail
         else sampleState.checkpointHistory) ++ [⟨now, kind, result⟩]) :=
  ⟨by decide, checkpoint_history_bound sampleState (by decide)⟩

/-- C10: `updateScrollMax` stores the maximum of the previous value and the
input — so the stored maximum never decreases — and leaves every field of
the state other than `diffMetrics.diff_scroll_max_pct` and `lastActive`
unchanged; with no current state it is a no-op. -/
theorem scroll_max_monotone (now : Int) (pct : ℚ) (s : SessionState) :
    (updateScrollMax now pct s).diffMetrics.diff_scroll_max_pct =
      max s.diffMetrics.diff_scroll_max_pct pct ∧
    s.diffMetrics.diff_scroll_max_pct ≤
      (updateScrollMax now pct s).diffMetrics.diff_scroll_max_pct ∧
    (updateScrollMax now pct s).prId = s.prId ∧
    (updateScrollMax now pct s).sessionId = s.sessionId ∧
    (updateScrollMax now pct s).prLoadTime = s.prLoadTime ∧
    (updateScrollMax now pct s).tabsViewed = s.tabsViewed ∧
    (updateScrollMax now pct s).checksViewed = s.checksViewed ∧
    (updateScrollMax now pct s).diffMetrics.diff_time_ms = s.diffMetrics.diff_time_ms ∧
    (updateScrollMax now pct s).nudgeProactive = s.nudgeProactive ∧
    (updateScrollMax now pct s).nudgePremerge = s.nudgePremerge ∧
    (updateScrollMax now pct s).checkpointHistory = s.checkpointHistory ∧
    updateScrollMaxOpt now pct none = none := by
  refine ⟨rfl, le_max_left _ _, rfl, rfl, rfl, rfl, rfl, rfl, rfl, rfl, rfl, rfl⟩

/-! ## PolicyLoader.classifyCheckpoint (src/src/policy/policy-loader.js)

A policy pattern string is handed to `new RegExp(pattern, 'i')`.  The
shipped patterns (fallback policy, policy-loader.js lines 63-76) are plain
literals without regex metacharacters, for which the regex test is exactly
case-insensitive substring containment; a pattern whose compilation throws
is caught and skipped with a warning (lines 244-249). -/

/-- One entry of a kind's `patterns` array: either a metacharacter-free
literal, or a string whose regex compilation throws. -/
inductive MatchPattern where
  | lit (s : JStr)
  | malformed (s : JStr)
deriving DecidableEq

/-- Test one pattern against a label: a literal tests case-insensitive
containment; a malformed pattern never matches because the `try` block is
left before `regex.test` runs. -/
def patternMatches (label : JStr) : MatchPattern → Bool
  | .lit p => containsCI label p
  | .malformed _ => false

/-- Inner loop of `classifyCheckpoint`: first matching pattern of one kind
(return on match, continue on failure or on a skipped malformed pattern). -/
def patternsMatch (label : JStr) : List MatchPattern → Bool
  | [] => false
  | p :: ps => patternMatches label p || patternsMatch label ps

/-- The `checkpoint_matchers.kinds` map in declaration (insertion) order, as
`Object.entries` iterates it. -/
abbrev KindList := List (String × List MatchPattern)

/-- Outer loop of `PolicyLoader.classifyCheckpoint` (policy-loader.js lines
238-254): first kind, in declaration order, with a matching pattern. -/
def classifyKinds (label : JStr) : KindList → Option String
  | [] => none
  | (kind, pats) :: rest =>
    if patternsMatch label pats then some kind else classifyKinds label rest

/-- `PolicyLoader.classifyCheckpoint` including the
`this.policy?.checkpoint_matchers?.kinds` guard. -/
def classifyCheckpoint (kinds : Option KindList) (label : JStr) : Option String :=
  match kinds with
  | none => none
  | some ks => classifyKinds label ks

/-- Classification result assembled by `EventInterceptor.classifyAction`
(part_001 lines 441-457); `mergeMethod` is DOM-derived and out of scope. -/
structure ActionInfo where
  kind : String
  intentTiming : String
deriving DecidableEq

/-- `EventInterceptor.classifyAction` (part_001 lines 441-457) with the
candidate already resolved to its accessible label and in-scope flag: out
of scope gives null, an empty label gives null, otherwise the policy
classification decides. -/
def classifyAction (kinds : Option KindList) (inScope : Bool) (label : JStr) :
    Option ActionInfo :=
  if !inScope then none
  else if label = [] then none
  else
    match classifyCheckpoint kinds label with
    | none => none
    | some kind => some ⟨kind, if kind = "MERGE_NOW" then "now" else "scheduled"⟩

/-- The `checkpoint_matchers.kinds` of the hard-coded fallback policy
(policy-loader.js lines 63-76). -/
def fallbackKinds : KindList :=
  [("MERGE_NOW", [.lit (jstr "Confirm merge"), .lit (jstr "Merge pull request")]),
   ("AUTO_MERGE_ENABLE", [.lit (jstr "Enable auto-merge")]),
   ("MERGE_QUEUE_ADD", [.lit (jstr "Add to merge queue"), .lit (jstr "Merge when ready")])]

/-- Drop the malformed patterns of every kind. -/
def dropMalformed (ks : KindList) : KindList :=
  ks.map fun kp => (kp.1, kp.2.filter fun p => match p with
    | .malformed _ => false
    | .lit _ => true)

/-- Helper: removing malformed patterns does not change the inner loop. -/
theorem patternsMatch_dropMalformed (label : JStr) (ps : List MatchPattern) :
    patternsMatch label (ps.filter fun p => match p with
      | .malformed _ => false
      | .lit _ => true) = patternsMatch label ps := by
  induction ps with
  | nil => rfl
  | cons p ps ih =>
    cases p with
    | lit s => simp [patternsMatch, List.filter, ih]
    | malformed s => simp [patternsMatch, List.filter, ih, patternMatches]

/-! ## Theorems: classification -/

/-- C5: classification is a function of (label, scope, policy); out-of-scope
candidates classify to null for every label and policy; skipping the
unparseable patterns changes no classification; the first kind in
declaration order with a matching pattern wins; and on the fallback policy
the label "Confirm merge" classifies to the immediate-merge kind when in
scope (also under different letter case) and to null when out of scope. -/
theorem classify_action_spec :
    (∀ (kinds : Option KindList) (label : JStr),
      classifyAction kinds false label = none) ∧
    (∀ (label : JStr) (ks : KindList),
      classifyKinds label (dropMalformed ks) = classifyKinds label ks) ∧
    (∀ (label : JStr) (ks : KindList) (i : Nat) (hi : i < ks.length),
      patternsMatch label (ks.get ⟨i, hi⟩).2 = true →
      (∀ (j : Nat) (hj : j < i),
        patternsMatch label (ks.get ⟨j, Nat.lt_trans hj hi⟩).2 = false) →
      classifyKinds label ks = some (ks.get ⟨i, hi⟩).1) ∧
    classifyAction (some fallbackKinds) true (jstr "Confirm merge") =
      some ⟨"MERGE_NOW", "now"⟩ ∧
    classifyAction (some fallbackKinds) true (jstr "CONFIRM MERGE") =
      some ⟨"MERGE_NOW", "now"⟩ ∧
    classifyAction (some fallbackKinds) false (jstr "Confirm merge") = none := by
  refine ⟨fun kinds label => rfl, fun label ks => ?_, fun label ks => ?_,
          by decide, by decide, rfl⟩
  · induction ks with
    | nil => rfl
    | cons kp rest ih =>
      simp only [dropMalformed, List.map, classifyKinds,
        patternsMatch_dropMalformed] at *
      rw [ih]
  · induction ks with
    | nil =>
      intro i hi
      simp at hi
    | cons kp rest ih =>
      intro i hi hmatch hbefore
      cases i with
      | zero =>
        simp only [List.get] at hmatch
        simp [classifyKinds, hmatch]
      | succ i =>
        have h0 : patternsMatch label kp.2 = false := by
          simpa using hbefore 0 (Nat.succ_pos i)
        simp only [List.get] at hmatch ⊢
        simp only [classifyKinds, h0, Bool.false_eq_true, if_false]
        exact ih i (Nat.lt_of_succ_lt_succ hi) hmatch
          (fun j hj => by simpa using hbefore (j + 1) (Nat.succ_lt_succ hj))

/-! ## EventInterceptor: suppression ordering (src/unnamed/part_001)

The claim under test is temporal: whether `preventDefault` /
`stopImmediatePropagation` run before the first suspension point of the
handler.  The handlers are embedded as the ordered trace of their
observable steps, one constructor per source action, with the branch
conditions (interception enabled, actionable element found, valid token
present, label classified) as inputs. -/

/-- Observable steps of the trigger-event handlers, in program order. -/
inductive GateStep where
  | awaitTokenCheck
  | consumeTokenStep
  | classifyStep
  | suppressDefault
  | runCheckpoint
deriving DecidableEq, BEq

/-- Trace of `EventInterceptor.handleClick` (part_001 lines 293-315):
guard on `shouldIntercept`, find the actionable element, `await
hasValidToken` (a suspension point), consume-and-return on a valid token,
otherwise classify, and only then suppress the default and run the
checkpoint flow. -/
def handleClickTrace (intercept found hasToken classified : Bool) : List GateStep :=
  if !intercept then []
  else if !found then []
  else
    .awaitTokenCheck ::
      (if hasToken then [.consumeTokenStep]
       else
        .classifyStep ::
          (if !classified then [] else [.suppressDefault, .runCheckpoint]))

/-- Trace of `EventInterceptor.handleSubmit` (part_001 lines 321-341):
guard, classify the form synchronously, return when unclassified, then
`await hasValidToken` (a suspension point), consume-and-return on a valid
token, and only then suppress the default and run the checkpoint flow. -/
def handleSubmitTrace (intercept classified hasToken : Bool) : List GateStep :=
  if !intercept then []
  else
    .classifyStep ::
      (if !classified then []
       else
        .awaitTokenCheck ::
          (if hasToken then [.consumeTokenStep]
           else [.suppressDefault, .runCheckpoint]))

/-- C1 evaluated at the failing input: for a classified gated action with no
valid allow token, both handlers reach their asynchronous token lookup
strictly before the default-effect suppression — the suppression is
deferred behind the suspension point, contradicting the required ordering. -/
theorem suppression_deferred_behind_token_lookup :
    handleClickTrace true true false true =
      [.awaitTokenCheck, .classifyStep, .suppressDefault, .runCheckpoint] ∧
    (handleClickTrace true true false true).indexOf .awaitTokenCheck <
      (handleClickTrace true true false true).indexOf .suppressDefault ∧
    handleSubmitTrace true true false =
      [.classifyStep, .awaitTokenCheck, .suppressDefault, .runCheckpoint] ∧
    (handleSubmitTrace true true false).indexOf .awaitTokenCheck <
      (handleSubmitTrace true true false).indexOf .suppressDefault := by
  refine ⟨rfl, by decide, rfl, by decide⟩

/-! ## Tier3Modal: confirmation surface (src/src/ui/tier3-modal.js)

The modal renders one checkbox per checklist item and one text input whose
expected confirmation text comes from the policy template.  `validate()`
(lines 169-173) enables the proceed button exactly when every checkbox is
checked and `textInput.value.trim().toUpperCase() ===
confirmationText.toUpperCase()`.  The exits (lines 178-208): proceed click
and Enter in the text input resolve 'completed' (both gated on the enabled
button — a disabled button fires no click, and the Enter branch tests
`!confirmBtn.disabled`); the cancel button, a click on the overlay itself
and the Escape key resolve 'aborted'. -/

/-- Modal configuration built from the policy template: the checklist items
and the expected confirmation text. -/
structure ModalConfig where
  checklist : List String
  confirmationText : JStr

/-- Interactive state of the open modal: the checked state of each rendered
checkbox (one per checklist item) and the text typed in the input. -/
structure ModalState where
  checked : List Bool
  typed : JStr

/-- The `validate()` predicate controlling `confirmBtn.disabled`
(tier3-modal.js lines 169-173). -/
def confirmEnabled (cfg : ModalConfig) (st : ModalState) : Bool :=
  st.checked.all (fun b => b) &&
    (toUpperJ (trimJ st.typed) = toUpperJ cfg.confirmationText)

/-- Ways of leaving the Tier-3 surface. -/
inductive ModalExit where
  | confirmClick
  | enterInInput
  | cancelClick
  | overlayClick
  | escapeKey
deriving DecidableEq

/-- Terminal outcome the modal promise resolves with. -/
inductive ModalOutcome where
  | completed
  | aborted
deriving DecidableEq

/-- Outcome of one exit interaction in state `st` (tier3-modal.js lines
178-208): `none` when the interaction does nothing (clicking the disabled
proceed button, Enter while it is disabled). -/
def exitOutcome (cfg : ModalConfig) (st : ModalState) : ModalExit → Option ModalOutcome
  | .confirmClick => if confirmEnabled cfg st then some .completed else none
  | .enterInInput => if confirmEnabled cfg st then some .completed else none
  | .cancelClick => some .aborted
  | .overlayClick => some .aborted
  | .escapeKey => some .aborted

/-- Tail of `EventInterceptor.handleCheckpoint` (part_001 lines 538-549):
on 'completed' record the checkpoint as completed and replay; otherwise
record it as aborted and issue no replay.  Returns the updated session
state and whether a replay was issued. -/
def handleCheckpointResult (outcome : ModalOutcome) (now : Int) (kind : String)
    (s : SessionState) : SessionState × Bool :=
  match outcome with
  | .completed => (recordCheckpoint now kind "completed" s, true)
  | .aborted => (recordCheckpoint now kind "aborted" s, false)

/-! ## Theorems: Tier-3 gate -/

/-- C2 as amended: with one checkbox per checklist item, an exit yields
'completed' iff it is the proceed click or Enter in the input while every
checkbox is checked and the TRIMMED typed text case-insensitively equals
the expected text; the cancel button, the overlay click and Escape always
yield 'aborted'; and after 'aborted' no replay is issued and the
checkpoint history records the aborted outcome. -/
theorem tier3_outcome_spec (cfg : ModalConfig) (st : ModalState)
    (_hn : st.checked.length = cfg.checklist.length) :
    (∀ ex : ModalExit,
      exitOutcome cfg st ex = some .completed ↔
        ((ex = .confirmClick ∨ ex = .enterInInput) ∧
          st.checked.all (fun b => b) = true ∧
          toUpperJ (trimJ st.typed) = toUpperJ cfg.confirmationText)) ∧
    (∀ ex : ModalExit,
      exitOutcome cfg st ex = some .aborted ↔
        (ex = .cancelClick ∨ ex = .overlayClick ∨ ex = .escapeKey)) ∧
    (∀ (now : Int) (kind : String) (s : SessionState),
      (handleCheckpointResult .aborted now kind s).2 = false ∧
      (handleCheckpointResult .aborted now kind s).1.checkpointHistory.getLast? =
        some ⟨now, kind, "aborted"⟩ ∧
      (handleCheckpointResult .completed now kind s).2 = true) := by
  refine ⟨fun ex => ?_, fun ex => ?_, fun now kind s => ⟨rfl, ?_, rfl⟩⟩
  · cases ex <;> by_cases h : confirmEnabled cfg st <;>
      simp_all [exitOutcome, confirmEnabled]
  · cases ex <;> by_cases h : confirmEnabled cfg st <;>
      simp_all [exitOutcome]
  · show (recordCheckpoint now kind "aborted" s).checkpointHistory.getLast? =
      some ⟨now, kind, "aborted"⟩
    simp only [recordCheckpoint]
    split
    · rename_i hcond
      cases hc : s.checkpointHistory with
      | nil =>
        rw [hc] at hcond
        simp at hcond
      | cons a t => exact List.getLast?_concat t
    · exact List.getLast?_concat _

/-- Tier-3 template of the fallback policy for the immediate-merge kind
(policy-loader.js lines 99-108), as the modal configuration it yields. -/
def fallbackTier3MergeNow : ModalConfig :=
  { checklist :=
      ["I visited \"Files changed\" and reviewed the diff.",
       "I checked CI/status checks.",
       "I can restate what this merges into."]
    confirmationText := jstr "MERGE" }

theorem tier3_outcome_spec_witness :
    exitOutcome fallbackTier3MergeNow ⟨[true, true, true], jstr "merge"⟩
      .confirmClick = some .completed :=
  ((tier3_outcome_spec fallbackTier3MergeNow ⟨[true, true, true], jstr "merge"⟩
      (by decide)).1 .confirmClick).mpr ⟨Or.inl rfl, by decide, by decide⟩

/-- C2 as stated is violated: with every checklist item acknowledged and
" merge " typed, the proceed click completes the surface although the typed
text does not case-insensitively equal the expected text "MERGE" — the code
compares after trimming surrounding whitespace. -/
theorem tier3_untrimmed_text_counterexample :
    exitOutcome fallbackTier3MergeNow ⟨[true, true, true], jstr " merge "⟩
      .confirmClick = some .completed ∧
    toUpperJ (jstr " merge ") ≠ toUpperJ (jstr "MERGE") :=
  ⟨by decide, by decide⟩

/-! ## Logger: payload redaction and persistence (src/src/utils/logger.js) -/

/-- JSON-like value carried in an event payload. -/
inductive JVal where
  | str (s : JStr)
  | num (q : ℚ)
  | jsBool (b : Bool)
  | jsNull
  | obj (fields : List (String × JVal))
  | arr (elems : List JVal)

/-- An event payload object: its fields in order. -/
abbrev Payload := List (String × JVal)

/-- The fixed denylist of `Logger.redact` (logger.js lines 80-90). -/
def sensitiveFields : List String :=
  ["diff_text", "comment_text", "code_snippet", "patch_content",
   "file_content", "token", "password", "api_key", "secret"]

/-- The string cap and truncation of `Logger.redact` (lines 97-101): a
top-level string longer than 500 units is cut to 500 units with the marker
appended; values of any other type pass through. -/
def truncateVal : JVal → JVal
  | .str s => if s.length > 500 then .str (s.take 500 ++ jstr "... [truncated]") else .str s
  | v => v

/-- `Logger.redact` (logger.js lines 75-104): shallow-clone the payload,
delete every denylisted top-level field, then truncate the remaining
top-level string fields.  Nested objects are not descended into. -/
def redact (payload : Payload) : Payload :=
  (payload.filter fun kv => !(decide (kv.1 ∈ sensitiveFields))).map
    fun kv => (kv.1, truncateVal kv.2)

/-- Entry appended by `Logger.log` (logger.js lines 31-56). -/
structure LogEvent where
  v : String
  ts : Int
  type : String
  payload : Payload
  policy_version : String
  extension_version : String

/-- The `while (buffer.length > this.BUFFER_SIZE) buffer.shift()` loop:
drop the oldest entries until at most `size` remain. -/
def trimBuffer (size : Nat) (l : List LogEvent) : List LogEvent :=
  l.drop (l.length - size)

/-- `Logger.log` (logger.js lines 31-56): build the event with the redacted
payload, push it, trim the ring buffer, persist. -/
def logAppend (bufferSize : Nat) (now : Int) (etype : String) (payload : Payload)
    (policyVersion extVersion : String) (buffer : List LogEvent) : List LogEvent :=
  trimBuffer bufferSize
    (buffer ++ [⟨"1.0.0", now, etype, redact payload, policyVersion, extVersion⟩])

/-! ## Theorems: payload redaction -/

/-- Payload violating the any-depth reading of the redaction rule: the
denylisted field sits one level down. -/
def deepSample : Payload := [("meta", .obj [("token", .str (jstr "sec"))])]

/-- C7 as stated is violated: redaction is shallow, so a denylisted field
("token") nested one level inside a retained field survives into the
persisted payload unchanged. -/
theorem redact_nested_counterexample :
    List.lookup "meta" (redact deepSample) =
      some (JVal.obj [("token", JVal.str (jstr "sec"))]) ∧
    "token" ∈ sensitiveFields :=
  ⟨rfl, by decide⟩

/-- C7 as amended: for every payload, the persisted entry's payload is the
redacted payload, in which every TOP-LEVEL denylisted field is stripped and
every remaining top-level string field longer than 500 units is truncated
to the cap with the marker appended; fields below the top level are not
inspected. -/
theorem redact_spec :
    (∀ (p : Payload) (k : String), k ∈ sensitiveFields →
      List.lookup k (redact p) = none) ∧
    (∀ (p : Payload) (k : String) (v : JVal), (k, v) ∈ redact p →
      k ∉ sensitiveFields ∧ ∃ v₀, (k, v₀) ∈ p ∧ v = truncateVal v₀) ∧
    (∀ s : JStr, truncateVal (.str s) =
      if s.length > 500 then .str (s.take 500 ++ jstr "... [truncated]")
      else .str s) ∧
    (∀ (bufferSize : Nat) (now : Int) (etype : String) (p : Payload)
        (pv ev : String) (buffer : List LogEvent), 0 < bufferSize →
      (logAppend bufferSize now etype p pv ev buffer).getLast? =
        some ⟨"1.0.0", now, etype, redact p, pv, ev⟩) := by
  refine ⟨fun p k hk => ?_, fun p k v hv => ?_, fun s => rfl,
          fun bufferSize now etype p pv ev buffer hpos => ?_⟩
  · induction p with
    | nil => rfl
    | cons kv rest ih =>
      rcases kv with ⟨k₀, v₀⟩
      by_cases hs : k₀ ∈ sensitiveFields
      · simpa [redact, List.filter_cons, hs] using ih
      · have hne : (k == k₀) = false := by
          simp only [beq_eq_false_iff_ne]
          intro he
          exact hs (he ▸ hk)
        simp only [redact, List.filter_cons, hs, decide_False, Bool.not_false,
          if_pos, List.map_cons, List.lookup, hne]
        simpa [redact] using ih
  · rcases List.mem_map.mp hv with ⟨⟨k₀, v₀⟩, hmem, hf⟩
    cases hf
    rcases List.mem_filter.mp hmem with ⟨hp, hpred⟩
    refine ⟨?_, v₀, hp, rfl⟩
    simpa using hpred
  · unfold logAppend trimBuffer
    rw [List.drop_append_eq_append_drop]
    have h0 : ((buffer ++
        [(⟨"1.0.0", now, etype, redact p, pv, ev⟩ : LogEvent)]).length - bufferSize)
        - buffer.length = 0 := by
      simp only [List.length_append, List.length_singleton]
      omega
    rw [h0, List.drop_zero]
    exact List.getLast?_concat _

/-! ## ReadinessCalculator (src/src/policy/readiness-calculator.js)

`calculate` reads the policy's `nudge_thresholds`: the per-signal weights
default through JavaScript `||` (so an explicit 0 falls back to the
default), the two tier thresholds default through `??` (nullish
coalescing, so an explicit 0 is honored).  The diagnostic `reasons`,
`positive` and `raw` fields carry no information used by any claim and are
omitted. -/

/-- JavaScript `x || d` on an optional rational field. -/
def jsOrQ (v : Option ℚ) (d : ℚ) : ℚ :=
  match v with
  | none => d
  | some x => if x = 0 then d else x

/-- The `nudge_thresholds.signals` object, every weight optional. -/
structure SignalsConfig where
  files_changed : Option ℚ
  checks_viewed : Option ℚ
  diff_time_target_ms : Option ℚ
  diff_time_max : Option ℚ
  scroll_depth : Option ℚ
  conversation_viewed : Option ℚ
  min_time_before_merge_ms : Option ℚ
  early_merge_penalty : Option ℚ

/-- The empty signals object produced by `.signals || {}`. -/
def defaultSignals : SignalsConfig :=
  ⟨none, none, none, none, none, none, none, none⟩

/-- The `nudge_thresholds` section of the policy. -/
structure ThresholdsConfig where
  signals : Option SignalsConfig
  tier1_min : Option ℚ
  tier2_min : Option ℚ

/-- Score accumulation of `ReadinessCalculator.calculate`
(readiness-calculator.js lines 18-76), before clamping: positive signals
for the files tab, checks, scaled diff time, scroll depth and conversation
tab, then the early-merge penalty. -/
def rawScore (th : ThresholdsConfig) (now : ℚ) (state : SessionState) : ℚ :=
  let signals := th.signals.getD defaultSignals
  let scoreFiles :=
    if state.tabsViewed.contains "files" then jsOrQ signals.files_changed 0.35 else 0
  let scoreChecks := if state.checksViewed then jsOrQ signals.checks_viewed 0.25 else 0
  let diffTime := state.diffMetrics.diff_time_ms
  let diffTimeTarget := jsOrQ signals.diff_time_target_ms 60000
  let diffTimeMax := jsOrQ signals.diff_time_max 0.20
  let diffTimeScore := min (diffTime / diffTimeTarget) 1 * diffTimeMax
  let scoreScroll :=
    if state.diffMetrics.diff_scroll_max_pct ≥ 50 then jsOrQ signals.scroll_depth 0.10
    else 0
  let scoreConv :=
    if state.tabsViewed.contains "conversation" then
      jsOrQ signals.conversation_viewed 0.10
    else 0
  let timeSinceLoad := now - jsOrQ (some state.prLoadTime) now
  let penalty :=
    if timeSinceLoad < jsOrQ signals.min_time_before_merge_ms 30000 then
      jsOrQ signals.early_merge_penalty 0.25
    else 0
  scoreFiles + scoreChecks + diffTimeScore + scoreScroll + scoreConv - penalty

/-- The clamp `score = Math.max(0, Math.min(1, score))` (line 79). -/
def clampedScore (th : ThresholdsConfig) (now : ℚ) (state : SessionState) : ℚ :=
  max 0 (min 1 (rawScore th now state))

/-- Tier mapping (lines 86-93), applied to the UNROUNDED clamped score:
`score ≥ tier1Min → 0`, else `score ≥ tier2Min → 1`, else `2`. -/
def tierOf (t1 t2 s : ℚ) : ℕ :=
  if s ≥ t1 then 0 else if s ≥ t2 then 1 else 2

/-- `Math.round(score * 100) / 100` (line 96). -/
def roundTo2 (q : ℚ) : ℚ := (⌊q * 100 + 1 / 2⌋ : ℚ) / 100

/-- Result of `calculate`, restricted to score and tier. -/
structure ReadinessResult where
  score : ℚ
  tier : ℕ
deriving DecidableEq

/-- `ReadinessCalculator.calculate` (readiness-calculator.js lines 15-107):
the rounded clamped score and the tier from the unrounded clamped score. -/
def calculate (th : ThresholdsConfig) (now : ℚ) (state : SessionState) :
    ReadinessResult :=
  { score := roundTo2 (clampedScore th now state)
    tier :=
      tierOf (th.tier1_min.getD 0.70) (th.tier2_min.getD 0.45)
        (clampedScore th now state) }

/-- Helper: the tier mapping is antitone in the score. -/
theorem tierOf_antitone (t1 t2 : ℚ) {s₁ s₂ : ℚ} (h : s₁ ≤ s₂) :
    tierOf t1 t2 s₂ ≤ tierOf t1 t2 s₁ := by
  unfold tierOf
  by_cases h1 : s₁ ≥ t1
  · simp [h1, le_trans h1 h]
  · by_cases h2 : s₂ ≥ t1
    · simp [h2]
    · by_cases h3 : s₁ ≥ t2
      · simp [h1, h2, h3, le_trans h3 h]
      · by_cases h4 : s₂ ≥ t2 <;> simp [h1, h2, h3, h4]

/-- Helper: the clamped score lies in [0, 1]. -/
theorem clampedScore_mem (th : ThresholdsConfig) (now : ℚ) (state : SessionState) :
    0 ≤ clampedScore th now state ∧ clampedScore th now state ≤ 1 := by
  unfold clampedScore
  exact ⟨le_max_left 0 _, max_le (by norm_num) (min_le_left 1 _)⟩

/-- Helper: rounding to two decimals keeps a value of [0, 1] inside [0, 1]. -/
theorem roundTo2_mem {q : ℚ} (h0 : 0 ≤ q) (h1 : q ≤ 1) :
    0 ≤ roundTo2 q ∧ roundTo2 q ≤ 1 := by
  unfold roundTo2
  have hlow : (0 : ℤ) ≤ ⌊q * 100 + 1 / 2⌋ := by
    rw [Int.le_floor]
    push_cast
    nlinarith
  have hhigh : ⌊q * 100 + 1 / 2⌋ ≤ 100 := by
    have : ⌊q * 100 + 1 / 2⌋ < 101 := by
      rw [Int.floor_lt]
      push_cast
      nlinarith
    omega
  constructor
  · apply div_nonneg _ (by norm_num)
    exact_mod_cast hlow
  · rw [div_le_one (by norm_num)]
    exact_mod_cast hhigh

/-! ## Theorems: readiness score and tier -/

/-- C6: for every session state and policy, `calculate` returns a score in
[0, 1] and a tier in \x7b0, 1, 2\x7d; the tier is the threshold mapping of the
unrounded clamped score, under which a score equal to `tier1_min` maps to
tier 0, a score in [`tier2_min`, `tier1_min`) maps to tier 1, a score below
`tier2_min` maps to tier 2 (given `tier2_min ≤ tier1_min`), and the mapping
is monotonically non-increasing in the score. -/
theorem calculate_score_tier_spec (th : ThresholdsConfig) (now : ℚ)
    (state : SessionState) :
    (0 ≤ (calculate th now state).score ∧ (calculate th now state).score ≤ 1) ∧
    ((calculate th now state).tier = 0 ∨ (calculate th now state).tier = 1 ∨
      (calculate th now state).tier = 2) ∧
    (calculate th now state).tier =
      tierOf (th.tier1_min.getD 0.70) (th.tier2_min.getD 0.45)
        (clampedScore th now state) ∧
    (clampedScore th now state = th.tier1_min.getD 0.70 →
      (calculate th now state).tier = 0) ∧
    (th.tier2_min.getD 0.45 ≤ clampedScore th now state →
      clampedScore th now state < th.tier1_min.getD 0.70 →
      (calculate th now state).tier = 1) ∧
    (th.tier2_min.getD 0.45 ≤ th.tier1_min.getD 0.70 →
      clampedScore th now state < th.tier2_min.getD 0.45 →
      (calculate th now state).tier = 2) ∧
    (∀ s₁ s₂ : ℚ, s₁ ≤ s₂ →
      tierOf (th.tier1_min.getD 0.70) (th.tier2_min.getD 0.45) s₂ ≤
        tierOf (th.tier1_min.getD 0.70) (th.tier2_min.getD 0.45) s₁) := by
  obtain ⟨hc0, hc1⟩ := clampedScore_mem th now state
  refine ⟨roundTo2_mem hc0 hc1, ?_, rfl, ?_, ?_, ?_, fun s₁ s₂ h => tierOf_antitone _ _ h⟩
  · show tierOf _ _ _ = 0 ∨ tierOf _ _ _ = 1 ∨ tierOf _ _ _ = 2
    unfold tierOf
    by_cases h1 : clampedScore th now state ≥ th.tier1_min.getD 0.70
    · simp [h1]
    · by_cases h2 : clampedScore th now state ≥ th.tier2_min.getD 0.45 <;>
        simp [h1, h2]
  · intro heq
    show tierOf _ _ _ = 0
    unfold tierOf
    simp [ge_iff_le, heq.ge]
  · intro h2 h1
    show tierOf _ _ _ = 1
    unfold tierOf
    simp [not_le.mpr h1, h2]
  · intro h21 hlt
    show tierOf _ _ _ = 2
    unfold tierOf
    have h1 : ¬ clampedScore th now state ≥ th.tier1_min.getD 0.70 :=
      not_le.mpr (lt_of_lt_of_le hlt h21)
    simp [h1, not_le.mpr hlt]

end MergeGuard
